import Mathlib

/-!
Shallow embedding of the `middle` layer of libffi-rs (`src/middle/mod.rs`).

Heap addresses are modelled as natural numbers (`0` is the null pointer);
allocation is modelled by threading a fresh-address supply `σ : Nat` through
the operations that allocate (boxing, building a `TypeArray`, cloning).
Calls into the external engine (the `low` module, which is not part of the
source under review) are recorded as `Step` events in a trace, and their
success or failure is an input of the modelled operation.  A Rust panic
(`assert!`, `.expect`, `.unwrap`) is modelled as `Except.error msg`: the
Rust signatures have no error channel, so an `error` result always means
an abort, never a returned error value.
-/

/-- A raw machine address.  `0` plays the role of the null pointer. -/
abbrev Ptr := Nat

/-- Modelled from the spec: the `types` module is not under `src/`.
A type descriptor is a tagged value, one of primitive (kind), pointer, or
aggregate of an ordered sequence of child descriptors (spec §3). -/
inductive TypeShape where
  | primitive (kind : Nat)
  | pointer
  | aggregate (children : List TypeShape)
deriving Repr

/-- Modelled from the spec: the `types` module is not under `src/`.
A `middle::types::Type` descriptor: a stable heap address (exposed by
`as_raw_ptr`, consumed by CIF preparation) together with its shape. -/
structure FfiType where
  addr : Ptr
  shape : TypeShape
deriving Repr

/-- `Type::as_raw_ptr`: read-only accessor of the descriptor's stable address. -/
def FfiType.as_raw_ptr (t : FfiType) : Ptr := t.addr

/-- Modelled from the spec: `Type`'s `Clone` deep-copies the descriptor into
fresh heap storage, so the copy has a new stable address and the same shape. -/
def FfiType.clone (t : FfiType) (σ : Ptr) : FfiType × Ptr :=
  (⟨σ, t.shape⟩, σ + 1)

/-- Modelled from the spec: the `types` module is not under `src/`.
A `middle::types::TypeArray`: an owned heap array of argument descriptors
(null-sentinel-terminated at the boundary), with a stable address. -/
structure TypeArray where
  addr : Ptr
  elems : List TypeShape
deriving Repr

/-- `TypeArray::as_raw_ptr`: the stable address of the owned array. -/
def TypeArray.as_raw_ptr (a : TypeArray) : Ptr := a.addr

/-- Modelled from the spec: `TypeArray`'s `Clone` deep-copies the owned array
into fresh heap storage: new address, identical element sequence. -/
def TypeArray.clone (a : TypeArray) (σ : Ptr) : TypeArray × Ptr :=
  (⟨σ, a.elems⟩, σ + 1)

/-- Modelled from the spec: `low::ffi_cif` (the invocation plan) is not under
`src/`.  Per spec §6, `prepare(plan, abi, arg_count, result_type_ptr,
arg_type_ptrs)` bakes exactly these fields into the plan. -/
structure FfiCif where
  abi : Nat
  nargs : Nat
  arg_types : Ptr
  rtype : Ptr
deriving Repr

/-- The platform's default calling convention tag (an opaque constant here). -/
def ffi_abi_FFI_DEFAULT_ABI : Nat := 2

/-- `Default::default()` for `ffi_cif`: the zeroed plan. -/
def ffiCifDefault : FfiCif := ⟨0, 0, 0, 0⟩

/-- Modelled from the spec: `low::prep_cif` is not under `src/`.  Per spec §6
and §4.2, the engine's prepare primitive inspects the types and either fails
(type/ABI combination rejected) or produces an invocation plan recording the
ABI, the argument count and raw addresses of the result type and the argument
array.  Success or failure of the external engine is the input `engineOk`. -/
def prep_cif (abi nargs : Nat) (rtypePtr argTypesPtr : Ptr)
    (engineOk : Bool) : Except String FfiCif :=
  if engineOk then
    .ok ⟨abi, nargs, argTypesPtr, rtypePtr⟩
  else
    .error "prep_cif failed"

/-- `middle::Cif`: the plan plus the owned argument array and result type. -/
structure Cif where
  cif : FfiCif
  args : TypeArray
  result : FfiType
deriving Repr

/-- `Cif::new` (`middle/mod.rs:116-136`): counts the argument types, builds
the owned `TypeArray` (heap allocation at the fresh address `σ`), zeroes an
`ffi_cif` and runs the engine's prepare primitive with the default ABI; a
rejection hits `.expect("low::prep_cif")`, modelled as the error message
`"low::prep_cif"` (a panic, since `Cif::new` returns `Self`). -/
def Cif.new (argTypes : List FfiType) (result : FfiType) (prepOk : Bool)
    (σ : Ptr) : Except String Cif × Ptr :=
  let nargs := argTypes.length
  let args : TypeArray := ⟨σ, argTypes.map FfiType.shape⟩
  let σ1 := σ + 1
  match prep_cif ffi_abi_FFI_DEFAULT_ABI nargs result.as_raw_ptr
      args.as_raw_ptr prepOk with
  | .error _ => (.error "low::prep_cif", σ1)
  | .ok cif => (.ok ⟨cif, args, result⟩, σ1)

/-- `Cif::clone` (`middle/mod.rs:93-106`): copies the plan bitwise, clones the
owned argument array and result type, then re-points the copied plan's
`arg_types` and `rtype` at the clones' addresses. -/
def Cif.clone (self : Cif) (σ : Ptr) : Cif × Ptr :=
  let argsClone := self.args.clone σ
  let resultClone := self.result.clone argsClone.2
  let copy : Cif := ⟨self.cif, argsClone.1, resultClone.1⟩
  let copy : Cif :=
    { copy with
        cif := { copy.cif with
                   arg_types := copy.args.as_raw_ptr,
                   rtype := copy.result.as_raw_ptr } }
  (copy, resultClone.2)

/-- `Cif::set_abi` (`middle/mod.rs:158-160`): writes the plan's ABI tag. -/
def Cif.set_abi (self : Cif) (abi : Nat) : Cif :=
  { self with cif := { self.cif with abi := abi } }

/-- A typed Rust reference `&T`, reduced to the address of its referent. -/
structure Ref (T : Type u) where
  addr : Ptr
deriving Repr

/-- `middle::Arg` (`middle/mod.rs:36`): an untyped argument pointer. -/
structure Arg where
  ptr : Ptr
deriving Repr

/-- `Arg::new` (`middle/mod.rs:43-45`): casts the reference's address to
`*mut c_void` and wraps it; no read, no write, no ownership transfer. -/
def Arg.new (r : Ref T) : Arg := ⟨r.addr⟩

/-- `middle::arg` (`middle/mod.rs:54-56`): delegates to `Arg::new`. -/
def arg (r : Ref T) : Arg := Arg.new r

/-- The record of one native invocation handed to the engine. -/
structure Invocation where
  plan : FfiCif
  fnPtr : Ptr
  argv : List Arg
deriving Repr

/-- Modelled from the spec: `low::call` is not under `src/`.  Per spec §6,
`invoke(plan_ptr, function_ptr, arg_ptr_array, result_slot_ptr)` performs the
native call and writes the result slot; the plan itself is not modified, so
the plan handed back is the plan handed in, alongside the invocation record. -/
def low_call (cif : FfiCif) (fnPtr : Ptr) (argv : List Arg) :
    Invocation × FfiCif :=
  (⟨cif, fnPtr, argv⟩, cif)

/-- `Cif::call` (`middle/mod.rs:148-155`): asserts that the argument slice's
length equals the plan's baked-in `nargs` (panicking with the assert message
otherwise), then invokes through the plan via `low::call`.  The returned
`Cif` is the receiver as the engine left it. -/
def Cif.call (self : Cif) (fnPtr : Ptr) (argv : List Arg) :
    Except String (Invocation × Cif) :=
  if self.cif.nargs = argv.length then
    let r := low_call self.cif fnPtr argv
    .ok (r.1, { self with cif := r.2 })
  else
    .error "Cif::call: passed wrong number of arguments"

/-- A heap box: a stable address plus the boxed value. -/
structure Boxed (α : Type u) where
  addr : Ptr
  val : α

/-- Type erasure for `Box<dyn Any>` contents: the erased type paired with a
value of it. -/
def DynAny := Σ α : Type, α

/-- Observable events of closure construction and destruction: heap boxing,
the engine's trampoline allocation (`low::closure_alloc`), installation into
the writable alias (`low::prep_closure` / `low::prep_closure_mut`, carrying
the writable-alias address, the boxed-CIF address, the dispatch callback, the
captured-state address and the executable-alias address), release of the
dual-mapped memory (`low::closure_free`), and the drops of the owned boxes. -/
inductive Step where
  | boxCif (cifAddr : Ptr)
  | boxUserdata (userdataAddr : Ptr)
  | closureAlloc (alloc code : Ptr)
  | prepClosure (alloc cifAddr callback userdata code : Ptr)
  | prepClosureMut (alloc cifAddr callback userdata code : Ptr)
  | closureFree (alloc : Ptr)
  | dropCif (cifAddr : Ptr)
  | dropUserdata (userdataAddr : Ptr)
deriving Repr, DecidableEq

/-- `middle::Closure` (`middle/mod.rs:226-231`): the boxed CIF, the writable
alias of the dual-mapped block, and the executable code pointer. -/
structure Closure where
  _cif : Boxed Cif
  alloc : Ptr
  code : Ptr

/-- `Closure::new` (`middle/mod.rs:255-276`): boxes the CIF, requests the
dual-mapped block from `low::closure_alloc` (its result `allocRes` = writable
alias, executable alias), then unconditionally installs the binding through
the writable alias with `low::prep_closure`; an installation failure hits
`.unwrap()` (a panic).  Returns the outcome together with the trace of
engine/heap events, threading the fresh-address supply. -/
def Closure.new (cif : Cif) (callback : Ptr) (userdata : Ptr)
    (allocRes : Ptr × Ptr) (prepOk : Bool) (σ : Ptr) :
    (Except String Closure × List Step) × Ptr :=
  let boxedCif : Boxed Cif := ⟨σ, cif⟩
  let σ1 := σ + 1
  let trace := [Step.boxCif boxedCif.addr,
                Step.closureAlloc allocRes.1 allocRes.2,
                Step.prepClosure allocRes.1 boxedCif.addr callback userdata
                  allocRes.2]
  if prepOk then
    ((.ok ⟨boxedCif, allocRes.1, allocRes.2⟩, trace), σ1)
  else
    ((.error "low::prep_closure: unwrap on Err", trace), σ1)

/-- `Closure::new_mut` (`middle/mod.rs:291-312`): identical to `Closure::new`
except the userdata is exclusive and installation goes through
`low::prep_closure_mut`. -/
def Closure.new_mut (cif : Cif) (callback : Ptr) (userdata : Ptr)
    (allocRes : Ptr × Ptr) (prepOk : Bool) (σ : Ptr) :
    (Except String Closure × List Step) × Ptr :=
  let boxedCif : Boxed Cif := ⟨σ, cif⟩
  let σ1 := σ + 1
  let trace := [Step.boxCif boxedCif.addr,
                Step.closureAlloc allocRes.1 allocRes.2,
                Step.prepClosureMut allocRes.1 boxedCif.addr callback userdata
                  allocRes.2]
  if prepOk then
    ((.ok ⟨boxedCif, allocRes.1, allocRes.2⟩, trace), σ1)
  else
    ((.error "low::prep_closure_mut: unwrap on Err", trace), σ1)

/-- `Closure::code_ptr` (`middle/mod.rs:321-323`): the stored executable
code pointer. -/
def Closure.code_ptr (self : Closure) : Ptr := self.code

/-- The body of `impl Drop for Closure` (`middle/mod.rs:233-239`): release
the dual-mapped block via `low::closure_free`. -/
def Closure.dropImpl (self : Closure) : List Step :=
  [Step.closureFree self.alloc]

/-- The implicit drops of `Closure`'s fields, in declaration order: only the
boxed CIF owns a heap resource (`alloc`/`code` are raw pointers, the marker is
zero-sized). -/
def Closure.fieldDrops (self : Closure) : List Step :=
  [Step.dropCif self._cif.addr]

/-- Rust drop semantics: `Drop::drop` runs first, then the fields are dropped
in declaration order. -/
def Closure.dropSteps (self : Closure) : List Step :=
  self.dropImpl ++ self.fieldDrops

/-- `middle::ClosureOnce` (`middle/mod.rs:348-353`): the dual-mapped block's
aliases, the boxed CIF, and the boxed type-erased userdata. -/
structure ClosureOnce where
  alloc : Ptr
  code : Ptr
  _cif : Boxed Cif
  _userdata : Boxed DynAny

/-- `ClosureOnce::new` (`middle/mod.rs:377-400`): boxes the CIF, moves the
userdata into `Box::new(Some(userdata)) as Box<dyn Any>`, requests the
dual-mapped block, asserts the writable alias is non-null (panicking with
`"closure_alloc: returned null"` before any installation), then downcasts the
box back to `&Option<U>` and installs through `low::prep_closure_mut` with
the address of that `Option` as the captured-state pointer. -/
def ClosureOnce.new (U : Type) (cif : Cif) (callback : Ptr) (userdata : U)
    (allocRes : Ptr × Ptr) (prepOk : Bool) (σ : Ptr) :
    (Except String ClosureOnce × List Step) × Ptr :=
  let boxedCif : Boxed Cif := ⟨σ, cif⟩
  let boxedUd : Boxed DynAny := ⟨σ + 1, ⟨Option U, some userdata⟩⟩
  let σ2 := σ + 2
  let pre := [Step.boxCif boxedCif.addr,
              Step.boxUserdata boxedUd.addr,
              Step.closureAlloc allocRes.1 allocRes.2]
  if allocRes.1 = 0 then
    ((.error "closure_alloc: returned null", pre), σ2)
  else
    let trace := pre ++ [Step.prepClosureMut allocRes.1 boxedCif.addr
                           callback boxedUd.addr allocRes.2]
    if prepOk then
      ((.ok ⟨allocRes.1, allocRes.2, boxedCif, boxedUd⟩, trace), σ2)
    else
      ((.error "low::prep_closure_mut: unwrap on Err", trace), σ2)

/-- `ClosureOnce::code_ptr` (`middle/mod.rs:409-411`). -/
def ClosureOnce.code_ptr (self : ClosureOnce) : Ptr := self.code

/-- The body of `impl Drop for ClosureOnce` (`middle/mod.rs:355-361`):
release the dual-mapped block via `low::closure_free`. -/
def ClosureOnce.dropImpl (self : ClosureOnce) : List Step :=
  [Step.closureFree self.alloc]

/-- The implicit drops of `ClosureOnce`'s fields, in declaration order:
`alloc`/`code` are raw pointers, then the boxed CIF, then the boxed
userdata. -/
def ClosureOnce.fieldDrops (self : ClosureOnce) : List Step :=
  [Step.dropCif self._cif.addr, Step.dropUserdata self._userdata.addr]

/-- Rust drop semantics: `Drop::drop` runs first, then the fields are dropped
in declaration order. -/
def ClosureOnce.dropSteps (self : ClosureOnce) : List Step :=
  self.dropImpl ++ self.fieldDrops

/-- A concrete `i64` type descriptor, used as a fixture. -/
def tI64 : FfiType := ⟨60, TypeShape.primitive 12⟩

/-- A concrete pointer type descriptor at address 50, used as a fixture. -/
def tPtr : FfiType := ⟨50, TypeShape.pointer⟩

/-- The concrete `Cif` produced by `Cif.new [tI64, tI64] tPtr true 0`. -/
def cifA : Cif :=
  ⟨⟨2, 2, 0, 50⟩, ⟨0, [TypeShape.primitive 12, TypeShape.primitive 12]⟩, tPtr⟩

/-- C1: for every `Cif` built by `Cif::new` and every argument slice passed to
`Cif::call`, a slice length different from the argument count recorded at
construction aborts with the assert's panic message before any invocation;
an equal length proceeds to invoke the function through the plan. -/
theorem cif_call_checks_arg_count (argTypes : List FfiType) (result : FfiType)
    (σ fnPtr : Ptr) (argv : List Arg) (c : Cif)
    (hc : (Cif.new argTypes result true σ).1 = .ok c) :
    (argv.length ≠ argTypes.length →
      c.call fnPtr argv =
        .error "Cif::call: passed wrong number of arguments") ∧
    (argv.length = argTypes.length →
      ∃ c2, c.call fnPtr argv = .ok (⟨c.cif, fnPtr, argv⟩, c2)) := by
  have hn : c.cif.nargs = argTypes.length := by
    simp [Cif.new, prep_cif] at hc
    subst hc
    rfl
  constructor
  · intro h
    simp [Cif.call, hn]
    omega
  · intro h
    refine ⟨{ c with cif := c.cif }, ?_⟩
    simp [Cif.call, low_call, hn, h]

/-- C1 witness: the fixture `cifA` records two arguments; one pointer aborts,
two pointers invoke through the plan. -/
theorem cif_call_checks_arg_count_witness :
    (cifA.call 9 [⟨7⟩] =
      .error "Cif::call: passed wrong number of arguments") ∧
    (∃ c2, cifA.call 9 [⟨7⟩, ⟨8⟩] = .ok (⟨cifA.cif, 9, [⟨7⟩, ⟨8⟩]⟩, c2)) := by
  refine ⟨(cif_call_checks_arg_count [tI64, tI64] tPtr 0 9 [⟨7⟩] cifA rfl).1
            (by decide),
          (cif_call_checks_arg_count [tI64, tI64] tPtr 0 9 [⟨7⟩, ⟨8⟩] cifA
            rfl).2 (by decide)⟩

/-- C2: cloning a `Cif` deep-copies the owned argument array and result type
(same contents, fresh addresses, assuming the allocator supply `σ` exceeds
the original's addresses), and the clone's plan is re-pointed so `arg_types`
is the clone's own array address and `rtype` the clone's own result address;
neither plan pointer references the original's storage. -/
theorem cif_clone_deep_copies_and_repoints (c : Cif) (σ : Ptr)
    (ha : c.args.addr < σ) (hr : c.result.addr < σ) :
    ((c.clone σ).1.cif.arg_types = (c.clone σ).1.args.addr) ∧
    ((c.clone σ).1.cif.rtype = (c.clone σ).1.result.addr) ∧
    ((c.clone σ).1.args.elems = c.args.elems) ∧
    ((c.clone σ).1.result.shape = c.result.shape) ∧
    ((c.clone σ).1.cif.abi = c.cif.abi) ∧
    ((c.clone σ).1.cif.nargs = c.cif.nargs) ∧
    ((c.clone σ).1.args.addr ≠ c.args.addr) ∧
    ((c.clone σ).1.result.addr ≠ c.result.addr) ∧
    ((c.clone σ).1.cif.arg_types ≠ c.args.addr) ∧
    ((c.clone σ).1.cif.rtype ≠ c.result.addr) := by
  simp [Cif.clone, TypeArray.clone, FfiType.clone, TypeArray.as_raw_ptr,
        FfiType.as_raw_ptr]
  have h1 : ¬σ = c.args.addr := fun e => absurd e.symm (Nat.ne_of_lt ha)
  have h2 : ¬σ + 1 = c.result.addr :=
    fun e => absurd e.symm (Nat.ne_of_lt (Nat.lt_succ_of_lt hr))
  exact ⟨h1, h2, h1, h2⟩

/-- C2 witness: cloning the fixture `cifA` with supply 100 re-points the
plan at the fresh copies and shares nothing with the original. -/
theorem cif_clone_deep_copies_and_repoints_witness :
    ((cifA.clone 100).1.cif.arg_types = (cifA.clone 100).1.args.addr) ∧
    ((cifA.clone 100).1.cif.rtype = (cifA.clone 100).1.result.addr) ∧
    ((cifA.clone 100).1.args.elems = cifA.args.elems) ∧
    ((cifA.clone 100).1.result.shape = cifA.result.shape) ∧
    ((cifA.clone 100).1.cif.abi = cifA.cif.abi) ∧
    ((cifA.clone 100).1.cif.nargs = cifA.cif.nargs) ∧
    ((cifA.clone 100).1.args.addr ≠ cifA.args.addr) ∧
    ((cifA.clone 100).1.result.addr ≠ cifA.result.addr) ∧
    ((cifA.clone 100).1.cif.arg_types ≠ cifA.args.addr) ∧
    ((cifA.clone 100).1.cif.rtype ≠ cifA.result.addr) :=
  cif_clone_deep_copies_and_repoints cifA 100 (by decide) (by decide)

/-- C3 counterexample: `Closure::new` performs no check on the result of
trampoline allocation.  With a null writable alias it still installs the
binding through address 0 (`prepClosure 0 ...` appears in the trace) and,
when the engine reports installation success, returns a closure as if
nothing had failed — no allocation failure is detected or reported before
installation is attempted. -/
theorem closure_new_missing_alloc_check :
    ((Closure.new cifA 11 22 (0, 0) true 100).1.2 =
      [Step.boxCif 100, Step.closureAlloc 0 0,
       Step.prepClosure 0 100 11 22 0]) ∧
    ((Closure.new cifA 11 22 (0, 0) true 100).1.1 =
      .ok ⟨⟨100, cifA⟩, 0, 0⟩) :=
  ⟨rfl, rfl⟩

/-- C3 amended: a type-preparation failure aborts `Cif::new` with the
diagnostic `"low::prep_cif"`; an installation failure aborts all three
closure constructors; a failed trampoline allocation is detected and
reported before installation is attempted only in `ClosureOnce::new`
(diagnostic `"closure_alloc: returned null"`, no install step in the trace);
`Closure::new` and `Closure::new_mut` perform no allocation check and
proceed directly to installation through the null writable alias. -/
theorem construction_failure_diagnostics (argTypes : List FfiType)
    (result : FfiType) (U : Type) (u : U) (cif : Cif) (cb ud a co σ : Ptr) :
    ((Cif.new argTypes result false σ).1 = .error "low::prep_cif") ∧
    ((Closure.new cif cb ud (a, co) false σ).1.1 =
      .error "low::prep_closure: unwrap on Err") ∧
    ((Closure.new_mut cif cb ud (a, co) false σ).1.1 =
      .error "low::prep_closure_mut: unwrap on Err") ∧
    (a ≠ 0 → (ClosureOnce.new U cif cb u (a, co) false σ).1.1 =
      .error "low::prep_closure_mut: unwrap on Err") ∧
    ((ClosureOnce.new U cif cb u (0, co) true σ).1.1 =
      .error "closure_alloc: returned null") ∧
    ((ClosureOnce.new U cif cb u (0, co) true σ).1.2 =
      [Step.boxCif σ, Step.boxUserdata (σ + 1), Step.closureAlloc 0 co]) ∧
    (Step.prepClosure 0 σ cb ud co ∈
      (Closure.new cif cb ud (0, co) true σ).1.2) ∧
    (Step.prepClosureMut 0 σ cb ud co ∈
      (Closure.new_mut cif cb ud (0, co) true σ).1.2) := by
  refine ⟨?_, rfl, rfl, ?_, rfl, rfl, ?_, ?_⟩
  · simp [Cif.new, prep_cif]
  · intro h
    simp [ClosureOnce.new, h]
  · simp [Closure.new]
  · simp [Closure.new_mut]

/-- C3 amended witness: the diagnostics at concrete inputs, with a non-null
allocation (7) for the installation-failure case of `ClosureOnce::new`. -/
theorem construction_failure_diagnostics_witness :
    ((Cif.new [tI64] tPtr false 0).1 = .error "low::prep_cif") ∧
    ((Closure.new cifA 11 22 (7, 8) false 100).1.1 =
      .error "low::prep_closure: unwrap on Err") ∧
    ((Closure.new_mut cifA 11 22 (7, 8) false 100).1.1 =
      .error "low::prep_closure_mut: unwrap on Err") ∧
    ((ClosureOnce.new Nat cifA 11 5 (7, 8) false 100).1.1 =
      .error "low::prep_closure_mut: unwrap on Err") ∧
    ((ClosureOnce.new Nat cifA 11 5 (0, 8) true 100).1.1 =
      .error "closure_alloc: returned null") ∧
    ((ClosureOnce.new Nat cifA 11 5 (0, 8) true 100).1.2 =
      [Step.boxCif 100, Step.boxUserdata 101, Step.closureAlloc 0 8]) ∧
    (Step.prepClosure 0 100 11 22 8 ∈
      (Closure.new cifA 11 22 (0, 8) true 100).1.2) ∧
    (Step.prepClosureMut 0 100 11 22 8 ∈
      (Closure.new_mut cifA 11 22 (0, 8) true 100).1.2) := by
  have h := construction_failure_diagnostics [tI64] tPtr Nat 5 cifA 11 22 7 8
    100
  have h0 := construction_failure_diagnostics [tI64] tPtr Nat 5 cifA 11 22 0 8
    100
  exact ⟨h.1, h.2.1, h.2.2.1, h.2.2.2.1 (by decide), h0.2.2.2.2.1,
    h0.2.2.2.2.2.1, h0.2.2.2.2.2.2.1, h0.2.2.2.2.2.2.2⟩

/-- The concrete `Cif` produced by `Cif.new [tI64] tPtr true 5`. -/
def cifB : Cif := ⟨⟨2, 1, 5, 50⟩, ⟨5, [TypeShape.primitive 12]⟩, tPtr⟩

/-- C4: if the engine's prepare primitive rejects the request, `Cif::new`
panics (modelled as `error "low::prep_cif"` — the function returns `Self`,
so no error value can be returned); if prepare succeeds, the returned `Cif`
records exactly the supplied number of argument types and the platform's
default ABI. -/
theorem cif_new_rejection_panics (argTypes : List FfiType) (result : FfiType)
    (σ : Ptr) :
    ((Cif.new argTypes result false σ).1 = .error "low::prep_cif") ∧
    (∀ c, (Cif.new argTypes result true σ).1 = .ok c →
      c.cif.nargs = argTypes.length ∧ c.cif.abi = ffi_abi_FFI_DEFAULT_ABI) := by
  constructor
  · simp [Cif.new, prep_cif]
  · intro c hc
    simp [Cif.new, prep_cif] at hc
    subst hc
    exact ⟨rfl, rfl⟩

/-- C4 witness: the fixture `cifB` from one argument type records one
argument and the default ABI, and the rejected construction panics. -/
theorem cif_new_rejection_panics_witness :
    ((Cif.new [tI64] tPtr false 5).1 = .error "low::prep_cif") ∧
    (cifB.cif.nargs = [tI64].length ∧
      cifB.cif.abi = ffi_abi_FFI_DEFAULT_ABI) :=
  ⟨(cif_new_rejection_panics [tI64] tPtr 5).1,
   (cif_new_rejection_panics [tI64] tPtr 5).2 cifB rfl⟩

/-- C5: a successful `Closure::new` / `Closure::new_mut` boxes the CIF,
allocates the dual-mapped block, then installs the binding (dispatch
callback, boxed-CIF address, captured-state address) through the writable
alias — in that order — and the stored code pointer is the executable
alias's address, which is exactly what `code_ptr` returns. -/
theorem closure_new_boxes_allocates_installs (cif : Cif) (cb ud a co σ : Ptr) :
    ((Closure.new cif cb ud (a, co) true σ).1.2 =
      [Step.boxCif σ, Step.closureAlloc a co,
       Step.prepClosure a σ cb ud co]) ∧
    ((Closure.new cif cb ud (a, co) true σ).1.1 = .ok ⟨⟨σ, cif⟩, a, co⟩) ∧
    (Closure.code_ptr ⟨⟨σ, cif⟩, a, co⟩ = co) ∧
    ((Closure.new_mut cif cb ud (a, co) true σ).1.2 =
      [Step.boxCif σ, Step.closureAlloc a co,
       Step.prepClosureMut a σ cb ud co]) ∧
    ((Closure.new_mut cif cb ud (a, co) true σ).1.1 = .ok ⟨⟨σ, cif⟩, a, co⟩) :=
  ⟨rfl, rfl, rfl, rfl, rfl⟩

/-- C6: destruction releases the dual-mapped trampoline memory first
(`low::closure_free` in `Drop::drop`), and only afterwards drops the boxed
CIF and, for `ClosureOnce`, the boxed userdata — in that order (Rust drops
fields in declaration order after `Drop::drop` returns). -/
theorem closure_drop_releases_memory_first (c : Closure) (k : ClosureOnce) :
    (c.dropSteps =
      [Step.closureFree c.alloc, Step.dropCif c._cif.addr]) ∧
    (k.dropSteps =
      [Step.closureFree k.alloc, Step.dropCif k._cif.addr,
       Step.dropUserdata k._userdata.addr]) :=
  ⟨rfl, rfl⟩

/-- C7: `ClosureOnce::new` moves the userdata into a heap box as the
type-erased value `Some u : Option U`, and the captured-state address handed
to the installation step is the address of that boxed `Option`. -/
theorem closure_once_erases_and_wraps_userdata (U : Type) (cif : Cif)
    (cb : Ptr) (u : U) (a co σ : Ptr) (ha : a ≠ 0) :
    ((ClosureOnce.new U cif cb u (a, co) true σ).1.1 =
      .ok ⟨a, co, ⟨σ, cif⟩, ⟨σ + 1, ⟨Option U, some u⟩⟩⟩) ∧
    ((ClosureOnce.new U cif cb u (a, co) true σ).1.2 =
      [Step.boxCif σ, Step.boxUserdata (σ + 1), Step.closureAlloc a co,
       Step.prepClosureMut a σ cb (σ + 1) co]) := by
  constructor <;> simp [ClosureOnce.new, ha]

/-- C7 witness: with userdata `5 : Nat`, the box at address 31 holds the
erased `some 5 : Option Nat` and the install step carries address 31. -/
theorem closure_once_erases_and_wraps_userdata_witness :
    ((ClosureOnce.new Nat cifA 9 5 (7, 8) true 30).1.1 =
      .ok ⟨7, 8, ⟨30, cifA⟩, ⟨31, ⟨Option Nat, some 5⟩⟩⟩) ∧
    ((ClosureOnce.new Nat cifA 9 5 (7, 8) true 30).1.2 =
      [Step.boxCif 30, Step.boxUserdata 31, Step.closureAlloc 7 8,
       Step.prepClosureMut 7 30 9 31 8]) :=
  closure_once_erases_and_wraps_userdata Nat cifA 9 5 7 8 30 (by decide)

/-- C8: `Cif::set_abi` changes only the plan's ABI tag; the recorded
argument count, the plan's `arg_types` and `rtype` pointers, the owned
argument array and the owned result type are all unchanged. -/
theorem set_abi_only_changes_abi (c : Cif) (abi : Nat) :
    ((c.set_abi abi).cif.abi = abi) ∧
    ((c.set_abi abi).cif.nargs = c.cif.nargs) ∧
    ((c.set_abi abi).cif.arg_types = c.cif.arg_types) ∧
    ((c.set_abi abi).cif.rtype = c.cif.rtype) ∧
    ((c.set_abi abi).args = c.args) ∧
    ((c.set_abi abi).result = c.result) :=
  ⟨rfl, rfl, rfl, rfl, rfl, rfl⟩

/-- C9: `arg` returns exactly `Arg::new`'s value, and both wrap precisely
the address of the referent; being plain functions of the reference, they
neither read, write, nor take ownership of the referent. -/
theorem arg_is_address_view (T : Type u) (r : Ref T) :
    (arg r = Arg.new r) ∧ ((Arg.new r).ptr = r.addr) ∧
    ((arg r).ptr = r.addr) :=
  ⟨rfl, rfl, rfl⟩

/-- C10: a successful `Cif::call` leaves the `Cif` unchanged: the recorded
argument count, ABI tag, plan pointers, owned argument array and result
type after the call are identical to their values before it. -/
theorem cif_call_preserves_cif (c : Cif) (fnPtr : Ptr) (argv : List Arg)
    (inv : Invocation) (c2 : Cif)
    (h : c.call fnPtr argv = .ok (inv, c2)) :
    (c2.cif.nargs = c.cif.nargs) ∧ (c2.cif.abi = c.cif.abi) ∧
    (c2.cif.arg_types = c.cif.arg_types) ∧ (c2.cif.rtype = c.cif.rtype) ∧
    (c2.args = c.args) ∧ (c2.result = c.result) := by
  by_cases hn : c.cif.nargs = argv.length
  · simp [Cif.call, low_call, hn] at h
    obtain ⟨h1, h2⟩ := h
    subst h2
    exact ⟨rfl, rfl, rfl, rfl, rfl, rfl⟩
  · simp [Cif.call, hn] at h

/-- C10 witness: calling the fixture `cifA` with two arguments succeeds and
hands back the `Cif` with every component unchanged. -/
theorem cif_call_preserves_cif_witness :
    (cifA.cif.nargs = cifA.cif.nargs) ∧ (cifA.cif.abi = cifA.cif.abi) ∧
    (cifA.cif.arg_types = cifA.cif.arg_types) ∧
    (cifA.cif.rtype = cifA.cif.rtype) ∧
    (cifA.args = cifA.args) ∧ (cifA.result = cifA.result) :=
  cif_call_preserves_cif cifA 9 [⟨7⟩, ⟨8⟩] ⟨cifA.cif, 9, [⟨7⟩, ⟨8⟩]⟩ cifA rfl
